import Mathlib

/-!
Shallow embedding of the Conway Game-of-Life "bio" repository.

Python strings are modelled as `List Char` and grids as `List (List Nat)`
(cells are the integers 0/1 in the source).  Sources embedded here:
`src/lifegame/lifegame/game.py`, `src/lifegame/lifegame/bio.py` and the
top-level script `src/conway-bio.py`.
-/

/-- Python strings are modelled as lists of characters. -/
abbrev Str := List Char

/-- Grids are 2D lists of integer cell states, exactly as in the Python source. -/
abbrev Grid := List (List Nat)

/-- Python `s.split("\n")`: split on every newline character; the empty
string yields a single empty line, and separators are not kept. -/
def split_nl : Str → List Str
  | [] => [[]]
  | c :: rest =>
    let ls := split_nl rest
    if c = '\n' then [] :: ls
    else (c :: ls.headD []) :: ls.tail

/-- Python `"\n".join(lines)`. -/
def join_nl : List Str → Str
  | [] => []
  | [l] => l
  | l :: ls => l ++ '\n' :: join_nl ls

/-- Whitespace characters removed by Python `str.strip()` (the ASCII ones;
no character of the bio alphabet is any other Unicode whitespace). -/
def py_isspace (c : Char) : Bool :=
  c == ' ' || c == '\t' || c == '\n' || c == '\r' || c == '\x0B' || c == '\x0C'

/-- Python `str.strip()`: remove leading and trailing whitespace. -/
def py_strip (s : Str) : Str :=
  ((s.dropWhile py_isspace).reverse.dropWhile py_isspace).reverse

/-- Modelled from the spec: the module `lifegame/constants.py` imported by
`bio.py` is absent from the sources.  Per the spec's external bio alphabet
(dead = one fixed "empty" glyph) and the literal glyphs used by the sibling
implementation in `conway-bio.py`, the dead glyph is the white square. -/
def EMPTY_CHAR : Char := '□'

/-- Modelled from the spec: the external "full" alive glyph (black square),
matching the literal used in `conway-bio.py`. -/
def FULL_CHAR : Char := '■'

/-- Modelled from the spec: the internal rendering alive glyph (full block),
matching the literal used in `conway-bio.py` and `game.py`. -/
def TALL_BLOCK_CHAR : Char := '█'

/-- Modelled from the spec: the row separator, a single line break. -/
def NEWLINE_CHAR : Char := '\n'

/-- Modelled from the spec: the alive-glyph set of the external bio alphabet
(full, top-half, bottom-half analogs), matching the literal string used in
`conway-bio.py`. -/
def ALIVE_CHARS : List Char := ['■', '▀', '▄']

namespace Game

/-- Embeds `load_grid_from_string` (`game.py` lines 15-73).  The `raise
ValueError` statements become `Except.error`; the emptiness check is on the
raw (unstripped) input exactly as in the source. -/
def load_grid_from_string (grid_str : Str) : Except String Grid :=
  if grid_str = [] then .error "Grid string cannot be empty"
  else
    let lines := split_nl (py_strip grid_str)
    if lines = [] then .error "Grid must have at least one row"
    else
      let expected_width := (lines.headD []).length
      lines.mapM (fun line =>
        if line.length ≠ expected_width then
          .error "inconsistent width"
        else
          line.mapM (fun c =>
            if c = '1' ∨ c = '█' then (Except.ok 1 : Except String Nat)
            else if c = '0' ∨ c = ' ' then Except.ok 0
            else Except.error "Invalid character"))

/-- Embeds `get_neighbors` (`game.py` lines 76-122): toroidal Moore-neighbor
count.  Python `%` on a possibly negative left operand with positive modulus
is `Int.emod`; `grid[ny][nx]` is in range after the modulo, rendered with
`getD`.  The empty-grid `ValueError` is not modelled (no claim reaches it). -/
def get_neighbors (x y : Nat) (grid : Grid) : Nat :=
  let height := grid.length
  let width := (grid.headD []).length
  ((([-1, 0, 1] : List Int)).map (fun dy =>
    ((([-1, 0, 1] : List Int)).map (fun dx =>
      if dx = 0 ∧ dy = 0 then 0
      else
        let nx := (((x : Int) + dx).emod (width : Int)).toNat
        let ny := (((y : Int) + dy).emod (height : Int)).toNat
        (grid.getD ny []).getD nx 0)).sum)).sum

/-- Embeds `next_cell_state` (`game.py` lines 125-189).  The rule-set name
check mirrors the source's string-keyed branching; the final unreachable
`return current_state` is kept as the default branch (the up-front
`ValueError` for an unknown rule set is not modelled; no claim reaches it). -/
def next_cell_state (x y : Nat) (grid : Grid) (rule_set : String) : Nat :=
  let current_state := (grid.getD y []).getD x 0
  let neighbor_count := get_neighbors x y grid
  if rule_set = "standard" then
    if current_state = 1 then
      if neighbor_count = 2 ∨ neighbor_count = 3 then 1 else 0
    else
      if neighbor_count = 3 then 1 else 0
  else if rule_set = "daynight" then
    if current_state = 1 then
      if neighbor_count = 3 ∨ neighbor_count = 4 ∨ neighbor_count = 6 ∨
          neighbor_count = 7 ∨ neighbor_count = 8 then 1 else 0
    else
      if neighbor_count = 3 ∨ neighbor_count = 6 ∨ neighbor_count = 7 ∨
          neighbor_count = 8 then 1 else 0
  else if rule_set = "highlife" then
    if current_state = 1 then
      if neighbor_count = 2 ∨ neighbor_count = 3 then 1 else 0
    else
      if neighbor_count = 3 ∨ neighbor_count = 6 then 1 else 0
  else current_state

/-- Embeds `step` (`game.py` lines 192-221): synchronous evolution against
the pre-step grid.  The empty-grid `ValueError` is not modelled. -/
def step (grid : Grid) (rule_set : String) : Grid :=
  let height := grid.length
  let width := (grid.headD []).length
  (List.range height).map (fun y =>
    (List.range width).map (fun x => next_cell_state x y grid rule_set))

/-- Modelled from the spec: the body of `render_full` in `game.py` (lines
276-291) is a TODO stub (`pass`).  Per its docstring and the spec's Renderer
section: one line per grid row, alive cells as the full block, dead cells as
space, lines joined by the row separator.  The `EmptyGrid` failure is not
modelled (all claims evaluate it on non-empty grids). -/
def render_full (grid : Grid) : Str :=
  join_nl (grid.map (fun row => row.map (fun c => if c = 1 then '█' else ' ')))

/-- Modelled from the spec: the glyph for one vertically adjacent cell pair
in half-block rendering, per the spec's 2x2 combination table. -/
def half_glyph (top bottom : Nat) : Char :=
  if top = 1 then (if bottom = 1 then '█' else '▀')
  else (if bottom = 1 then '▄' else ' ')

/-- Modelled from the spec: pair the grid rows (0 with 1, 2 with 3, ...);
an odd final row is combined with an implicit all-dead row. -/
def pair_rows : Grid → List Str
  | [] => []
  | [r] => [r.map (fun t => half_glyph t 0)]
  | r1 :: r2 :: rest => (List.zipWith half_glyph r1 r2) :: pair_rows rest

/-- Modelled from the spec: the body of `render_half` in `game.py` (lines
294-314) is a TODO stub (`pass`).  Per its docstring and the spec's Renderer
section: combine vertically adjacent row pairs by the combination table,
join the output rows with the row separator. -/
def render_half (grid : Grid) : Str :=
  join_nl (pair_rows grid)

end Game

/-- C6: under toroidal wraparound with the Standard rules, the vertical
blinker steps to the all-alive 3x3 grid, which then steps to all-dead. -/
theorem blinker_wraparound_steps :
    Game.step [[0, 1, 0], [0, 1, 0], [0, 1, 0]] "standard" =
      [[1, 1, 1], [1, 1, 1], [1, 1, 1]] ∧
    Game.step [[1, 1, 1], [1, 1, 1], [1, 1, 1]] "standard" =
      [[0, 0, 0], [0, 0, 0], [0, 0, 0]] := by
  exact ⟨rfl, rfl⟩

/-- C4: `render_half` maps each vertically adjacent cell pair by the
combination table -- (dead,dead) to space, (dead,alive) to the bottom-half
glyph, (alive,dead) to the top-half glyph, (alive,alive) to the full block
-- so the 2-row grid `[[0,0,1,1],[0,1,0,1]]` renders to the 4-character
string space, bottom-half, top-half, full-block in that column order. -/
theorem render_half_combination_table :
    Game.half_glyph 0 0 = ' ' ∧ Game.half_glyph 0 1 = '▄' ∧
    Game.half_glyph 1 0 = '▀' ∧ Game.half_glyph 1 1 = '█' ∧
    Game.render_half [[0, 0, 1, 1], [0, 1, 0, 1]] = [' ', '▄', '▀', '█'] := by
  exact ⟨rfl, rfl, rfl, rfl, rfl⟩

namespace Bio

/-- Embeds the flat-string inflation step of `parse_bio_to_grid`
(`bio.py` lines 48-71): a non-empty bio containing no newline is sliced into
`cols`-character chunks, a final partial chunk is right-padded with the dead
glyph, all-dead rows are appended until there are at least `rows`, and the
result is re-joined with newlines. -/
def inflate (current_bio : Str) (rows cols : Nat) : Str :=
  if '\n' ∉ current_bio ∧ 0 < current_bio.length then
    let complete_rows := current_bio.length / cols
    let remainder := current_bio.length % cols
    let board_lines :=
      (List.range complete_rows).map (fun i => (current_bio.drop (i * cols)).take cols)
    let board_lines :=
      if 0 < remainder then
        board_lines ++
          [current_bio.drop (complete_rows * cols) ++
            List.replicate (cols - remainder) EMPTY_CHAR]
      else board_lines
    let board_lines :=
      board_lines ++
        List.replicate (rows - board_lines.length) (List.replicate cols EMPTY_CHAR)
    join_nl board_lines
  else current_bio

/-- Embeds the split/validate/repair step of `parse_bio_to_grid`
(`bio.py` lines 73-92): split on newlines, keep the first `rows` lines;
if fewer than `rows` remain, mark invalid and pad with all-dead rows;
otherwise right-pad or truncate each wrong-width line to `cols`, marking
invalid if any width differed. -/
def repair (current_bio : Str) (rows cols : Nat) : List Str × Bool :=
  let lines := split_nl current_bio
  let board_lines := lines.take rows
  if board_lines.length < rows then
    (board_lines ++
      List.replicate (rows - board_lines.length) (List.replicate cols EMPTY_CHAR),
     false)
  else
    (board_lines.map (fun line =>
        if line.length ≠ cols then
          if line.length < cols then
            line ++ List.replicate (cols - line.length) EMPTY_CHAR
          else line.take cols
        else line),
     board_lines.all (fun line => line.length == cols))

/-- Embeds the default-glider substitution of `parse_bio_to_grid`
(`bio.py` lines 94-105): when the result is invalid and the joined board is
blank after stripping, replace it with an all-dead board carrying a glider
(drawn with the full glyph) in the top-left corner when both dimensions are
at least 3. -/
def glider_sub (board_lines : List Str) (valid : Bool) (rows cols : Nat) :
    List Str :=
  if valid = false ∧ py_strip board_lines.flatten = [] then
    if 3 ≤ cols ∧ 3 ≤ rows then
      (((List.replicate rows (List.replicate cols EMPTY_CHAR)).set 0
          (EMPTY_CHAR :: FULL_CHAR :: EMPTY_CHAR ::
            List.replicate (cols - 3) EMPTY_CHAR)).set 1
          (EMPTY_CHAR :: EMPTY_CHAR :: FULL_CHAR ::
            List.replicate (cols - 3) EMPTY_CHAR)).set 2
          (FULL_CHAR :: FULL_CHAR :: FULL_CHAR ::
            List.replicate (cols - 3) EMPTY_CHAR)
    else List.replicate rows (List.replicate cols EMPTY_CHAR)
  else board_lines

/-- Embeds the classification loop of `parse_bio_to_grid`
(`bio.py` lines 107-118): the `if i < rows` enumeration guard keeps exactly
the first `rows` characters of each line, each mapped to 1 when in the
alive-glyph set and to 0 otherwise. -/
def to_grid (board_lines : List Str) (rows : Nat) : Grid :=
  board_lines.map (fun line =>
    (line.take rows).map (fun cell => if cell ∈ ALIVE_CHARS then 1 else 0))

/-- Embeds `parse_bio_to_grid` (`bio.py` lines 34-118) as the composition of
its four blocks. -/
def parse_bio_to_grid (current_bio : Str) (rows cols : Nat) : Grid × Bool :=
  let bio := inflate current_bio rows cols
  let p := repair bio rows cols
  (to_grid (glider_sub p.1 p.2 rows cols) rows, p.2)

/-- Error-aware rendering of `parse_bio_to_grid`: the body contains no
`raise`; its only implicitly fallible operations are the `//`/`%` by `cols`
in the flat-inflation branch, which raise `ZeroDivisionError` in Python
exactly when that branch runs with `cols = 0`. -/
def parse_bio_to_grid_checked (current_bio : Str) (rows cols : Nat) :
    Except String (Grid × Bool) :=
  if '\n' ∉ current_bio ∧ 0 < current_bio.length ∧ cols = 0 then
    .error "ZeroDivisionError"
  else .ok (parse_bio_to_grid current_bio rows cols)

/-- Embeds `format_grid_for_bio` (`bio.py` lines 121-173): render, remap the
internal glyphs to the bio alphabet, and return the pair.  The entire
flatten-and-truncate block (lines 156-170) is commented out in the source,
so the first component is returned with its newlines and is never
truncated. -/
def format_grid_for_bio (grid : Grid) (display_mode : String)
    (max_length : Nat) : Str × Str :=
  let rendered_grid :=
    if display_mode = "full" then Game.render_full grid
    else Game.render_half grid
  let formatted_grid :=
    if display_mode = "full" then
      (rendered_grid.map (fun c => if c = TALL_BLOCK_CHAR then FULL_CHAR else c)).map
        (fun c => if c = ' ' then EMPTY_CHAR else c)
    else
      rendered_grid.map (fun c => if c = ' ' then EMPTY_CHAR else c)
  let display_version := formatted_grid
  (formatted_grid, display_version)

end Bio

namespace ConwayBio

/-- Embeds the flat-string inflation step of the script's
`parse_bio_to_grid` (`conway-bio.py` lines 247-268), identical to the
package version with the dead glyph written literally. -/
def inflate (current_bio : Str) (rows cols : Nat) : Str :=
  if '\n' ∉ current_bio ∧ 0 < current_bio.length then
    let complete_rows := current_bio.length / cols
    let remainder := current_bio.length % cols
    let board_lines :=
      (List.range complete_rows).map (fun i => (current_bio.drop (i * cols)).take cols)
    let board_lines :=
      if 0 < remainder then
        board_lines ++
          [current_bio.drop (complete_rows * cols) ++
            List.replicate (cols - remainder) '□']
      else board_lines
    let board_lines :=
      board_lines ++
        List.replicate (rows - board_lines.length) (List.replicate cols '□')
    join_nl board_lines
  else current_bio

/-- Embeds the split/validate/repair step of the script's
`parse_bio_to_grid` (`conway-bio.py` lines 270-289). -/
def repair (current_bio : Str) (rows cols : Nat) : List Str × Bool :=
  let lines := split_nl current_bio
  let board_lines := lines.take rows
  if board_lines.length < rows then
    (board_lines ++
      List.replicate (rows - board_lines.length) (List.replicate cols '□'),
     false)
  else
    (board_lines.map (fun line =>
        if line.length ≠ cols then
          if line.length < cols then
            line ++ List.replicate (cols - line.length) '□'
          else line.take cols
        else line),
     board_lines.all (fun line => line.length == cols))

/-- Embeds the default-glider substitution of the script's
`parse_bio_to_grid` (`conway-bio.py` lines 291-298); the script draws the
glider with the top-half glyph. -/
def glider_sub (board_lines : List Str) (valid : Bool) (rows cols : Nat) :
    List Str :=
  if valid = false ∧ py_strip board_lines.flatten = [] then
    if 3 ≤ cols ∧ 3 ≤ rows then
      (((List.replicate rows (List.replicate cols '□')).set 0
          ('□' :: '▀' :: '□' :: List.replicate (cols - 3) '□')).set 1
          ('□' :: '□' :: '▀' :: List.replicate (cols - 3) '□')).set 2
          ('▀' :: '▀' :: '▀' :: List.replicate (cols - 3) '□')
    else List.replicate rows (List.replicate cols '□')
  else board_lines

/-- Embeds the classification comprehension of the script's
`parse_bio_to_grid` (`conway-bio.py` lines 300-305): every character of each
line is mapped, with no index guard. -/
def to_grid (board_lines : List Str) : Grid :=
  board_lines.map (fun line =>
    line.map (fun cell => if cell ∈ ['■', '▀', '▄'] then 1 else 0))

/-- Embeds the script's `parse_bio_to_grid` (`conway-bio.py` lines 235-307)
as the composition of its four blocks. -/
def parse_bio_to_grid (current_bio : Str) (rows cols : Nat) : Grid × Bool :=
  let bio := inflate current_bio rows cols
  let p := repair bio rows cols
  (to_grid (glider_sub p.1 p.2 rows cols), p.2)

/-- Embeds the script's `format_grid_for_bio` (`conway-bio.py` lines
310-363): render, remap glyphs, then flatten the newlines away and truncate
to `max_length` only when the flat length strictly exceeds it.  Python
`replace("\n", "")` is a filter; the warning prints are side-effect-free. -/
def format_grid_for_bio (grid : Grid) (display_mode : String)
    (max_length : Nat) : Str × Str :=
  let rendered_grid :=
    if display_mode = "full" then Game.render_full grid
    else Game.render_half grid
  let formatted_grid :=
    if display_mode = "full" then
      (rendered_grid.map (fun c => if c = '█' then '■' else c)).map
        (fun c => if c = ' ' then '□' else c)
    else
      rendered_grid.map (fun c => if c = ' ' then '□' else c)
  let display_version := formatted_grid
  let total_chars := (formatted_grid.filter (fun c => c != '\n')).length
  let formatted_grid :=
    if max_length < total_chars then
      (formatted_grid.filter (fun c => c != '\n')).take max_length
    else formatted_grid.filter (fun c => c != '\n')
  (formatted_grid, display_version)

end ConwayBio

/-- C5: evaluating the package decoder at the failing input: the empty bio
with `rows = cols = 3` yields a first row of zero cells and two all-dead
rows with `isValid = false`, not the glider pattern -- the glider branch is
unreachable for an empty bio because the rows padded in with the dead glyph
do not strip to blank.  The script decoder, whose glyphs are in-source
literals, returns the same non-glider result. -/
theorem parse_empty_bio_not_glider :
    Bio.parse_bio_to_grid [] 3 3 = ([[], [0, 0, 0], [0, 0, 0]], false) ∧
    ConwayBio.parse_bio_to_grid [] 3 3 = ([[], [0, 0, 0], [0, 0, 0]], false) ∧
    ([[], [0, 0, 0], [0, 0, 0]] : Grid) ≠ [[0, 1, 0], [0, 0, 1], [1, 1, 1]] := by
  decide

/-- C2: evaluating the package decoder at the failing input: the well-formed
bio of exactly 1 line of 2 characters parses to a row of only 1 cell (the
classification loop guards the column index against `rows` instead of
`cols`), while the script decoder returns the full 2-cell row. -/
theorem parse_wellformed_guard_drops_cells :
    Bio.parse_bio_to_grid ['■', '■'] 1 2 = ([[1]], true) ∧
    ConwayBio.parse_bio_to_grid ['■', '■'] 1 2 = ([[1, 1]], true) := by
  decide

/-- C1: evaluating the encode-then-decode round trip at the failing input:
the grid `[[1,1]]` with `rows = 1`, `cols = 2`, `maxLength = 160` (so
`rows*cols ≤ maxLength`) encodes and decodes back to `[[1]]`, losing the
second cell to the decoder's `i < rows` column guard. -/
theorem roundtrip_fails_at_two_columns :
    1 * 2 ≤ 160 ∧
    (Bio.parse_bio_to_grid (Bio.format_grid_for_bio [[1, 1]] "full" 160).1 1 2).1 =
      [[1]] ∧
    ([[1]] : Grid) ≠ [[1, 1]] := by
  decide

/-- C3: evaluating the package encoder at the failing input: for the 2-row
grid `[[1],[1]]` in full mode with budget 160, the first returned component
still contains the row separator, whereas the display text with separators
removed (length 2, under the budget, so no truncation) is the 2-character
flat string. -/
theorem format_first_component_not_flattened :
    (Bio.format_grid_for_bio [[1], [1]] "full" 160).1 = ['■', '\n', '■'] ∧
    (Bio.format_grid_for_bio [[1], [1]] "full" 160).2.filter (fun c => c != '\n') =
      ['■', '■'] ∧
    (['■', '\n', '■'] : Str) ≠ ['■', '■'] := by
  decide

/-- C8 counterexample: a single space trims to the empty string, yet the
strict decoder does not fail with the empty-input error -- it returns the
degenerate one-empty-row grid, because the emptiness check runs on the raw
string before trimming. -/
theorem strict_decode_whitespace_not_error :
    Game.load_grid_from_string [' '] = Except.ok [[]] := rfl

/-- C9 counterexample: the flat bio of four alive glyphs splits into a
single line, fewer than `rows = 2`, yet parses with `isValid = true`: a
separator-free non-empty bio is inflated into full-width rows before
validation. -/
theorem flat_bio_fewer_lines_valid :
    (split_nl ['■', '■', '■', '■']).length < 2 ∧
    (Bio.parse_bio_to_grid ['■', '■', '■', '■'] 2 2).2 = true := by
  decide

/-- C10 counterexample: the package decoder and the script decoder disagree
on the bio of 2 alive glyphs with `rows = 1`, `cols = 2` (the package
version keeps only the first `rows` cells of the row). -/
theorem decoders_disagree :
    Bio.parse_bio_to_grid ['■', '■'] 1 2 ≠ ConwayBio.parse_bio_to_grid ['■', '■'] 1 2 := by
  decide

/-- Splitting a string that contains no newline yields that single line. -/
theorem split_nl_of_not_mem (s : Str) (h : '\n' ∉ s) : split_nl s = [s] := by
  induction s with
  | nil => rfl
  | cons c rest ih =>
    have hc : ¬(c = '\n') := fun hc => h (hc ▸ List.mem_cons_self c rest)
    have hr : '\n' ∉ rest := fun hr => h (List.mem_cons_of_mem c hr)
    simp [split_nl, hc, ih hr]

/-- The inflation step is the identity on any bio containing a newline. -/
theorem Bio.inflate_of_mem (bio : Str) (rows cols : Nat) (h : '\n' ∈ bio) :
    Bio.inflate bio rows cols = bio := by
  unfold Bio.inflate
  rw [if_neg]
  rintro ⟨ha, -⟩
  exact ha h

/-- The inflation step is the identity on the empty bio. -/
theorem Bio.inflate_nil (rows cols : Nat) : Bio.inflate [] rows cols = [] := by
  unfold Bio.inflate
  rw [if_neg]
  rintro ⟨-, h⟩
  simp at h

/-- The validity flag of the package decoder is the one computed by the
repair step on the inflated bio. -/
theorem Bio.parse_snd (bio : Str) (rows cols : Nat) :
    (Bio.parse_bio_to_grid bio rows cols).2 =
      (Bio.repair (Bio.inflate bio rows cols) rows cols).2 := rfl

/-- C7: for every bio string and dimensions at least 1, the package decoder
returns normally -- its only implicitly fallible operation is the division
by `cols` in the flat-inflation branch, which cannot fail when `cols` is
at least 1. -/
theorem parse_bio_never_raises (current_bio : Str) (rows cols : Nat)
    (hr : 1 ≤ rows) (hc : 1 ≤ cols) :
    Bio.parse_bio_to_grid_checked current_bio rows cols =
      Except.ok (Bio.parse_bio_to_grid current_bio rows cols) := by
  unfold Bio.parse_bio_to_grid_checked
  rw [if_neg]
  rintro ⟨-, -, h⟩
  omega

/-- Witness for C7 at the concrete bio of one alive glyph. -/
theorem parse_bio_never_raises_witness :
    Bio.parse_bio_to_grid_checked ['■'] 1 1 =
      Except.ok (Bio.parse_bio_to_grid ['■'] 1 1) :=
  parse_bio_never_raises ['■'] 1 1 (by decide) (by decide)

/-- C8 (amended): the strict decoder fails with the empty-input error on the
empty string, but a non-empty string whose stripped form is empty is not
rejected: the emptiness check precedes the trim, so the decoder returns the
degenerate grid of one empty row. -/
theorem strict_decode_empty_and_blank (s : Str) (hne : s ≠ [])
    (hb : py_strip s = []) :
    Game.load_grid_from_string [] = Except.error "Grid string cannot be empty" ∧
    Game.load_grid_from_string s = Except.ok [[]] := by
  refine ⟨rfl, ?_⟩
  unfold Game.load_grid_from_string
  rw [if_neg hne, hb]
  rfl

/-- Witness for C8 at the concrete one-space string. -/
theorem strict_decode_empty_and_blank_witness :
    Game.load_grid_from_string [] = Except.error "Grid string cannot be empty" ∧
    Game.load_grid_from_string [' '] = Except.ok [[]] :=
  strict_decode_empty_and_blank [' '] (by decide) (by decide)

/-- C9 (amended): a bio splitting into more than `rows` lines, each of width
`cols`, parses with `isValid = true` (the extra lines are ignored), while a
bio that is empty or contains the separator and splits into fewer than
`rows` lines parses with `isValid = false`.  (A non-empty separator-free bio
is first inflated into at least `rows` full-width lines and therefore parses
as valid even though it splits into a single line.) -/
theorem parse_line_count_validity (bio : Str) (rows cols : Nat)
    (hr : 1 ≤ rows) (hc : 1 ≤ cols) :
    ((rows < (split_nl bio).length →
        (∀ l ∈ split_nl bio, l.length = cols) →
        (Bio.parse_bio_to_grid bio rows cols).2 = true) ∧
      ((bio = [] ∨ '\n' ∈ bio) →
        (split_nl bio).length < rows →
        (Bio.parse_bio_to_grid bio rows cols).2 = false)) := by
  constructor
  · intro hm hw
    have hmem : '\n' ∈ bio := by
      by_contra hnot
      rw [split_nl_of_not_mem bio hnot] at hm
      simp at hm
      omega
    rw [Bio.parse_snd, Bio.inflate_of_mem bio rows cols hmem]
    simp only [Bio.repair]
    have hlen : ((split_nl bio).take rows).length = rows := by
      rw [List.length_take]
      omega
    rw [if_neg (by rw [hlen]; omega)]
    show ((split_nl bio).take rows).all (fun line => line.length == cols) = true
    rw [List.all_eq_true]
    intro l hl
    have := hw l (List.take_subset rows (split_nl bio) hl)
    simp [this]
  · intro hsep hf
    have hinf : Bio.inflate bio rows cols = bio := by
      rcases hsep with h | h
      · rw [h]
        exact Bio.inflate_nil rows cols
      · exact Bio.inflate_of_mem bio rows cols h
    rw [Bio.parse_snd, hinf]
    simp only [Bio.repair]
    rw [if_pos (by rw [List.length_take]; omega)]

/-- Witness for C9 at two concrete bios: three 1-wide lines with `rows = 2`
(valid) and two lines with `rows = 3` (invalid). -/
theorem parse_line_count_validity_witness :
    (Bio.parse_bio_to_grid ['■', '\n', '■', '\n', '■'] 2 1).2 = true ∧
    (Bio.parse_bio_to_grid ['■', '\n', '■'] 3 1).2 = false :=
  ⟨(parse_line_count_validity ['■', '\n', '■', '\n', '■'] 2 1 (by decide)
      (by decide)).1 (by decide) (by decide),
   (parse_line_count_validity ['■', '\n', '■'] 3 1 (by decide) (by decide)).2
      (by decide) (by decide)⟩

/-- The grid component of the package decoder, written out. -/
theorem bio_parse_grid_fst (bio : Str) (rows cols : Nat) :
    (Bio.parse_bio_to_grid bio rows cols).1 =
      Bio.to_grid
        (Bio.glider_sub (Bio.repair (Bio.inflate bio rows cols) rows cols).1
          (Bio.repair (Bio.inflate bio rows cols) rows cols).2 rows cols) rows := rfl

/-- The grid component of the script decoder, written out. -/
theorem conway_parse_grid_fst (bio : Str) (rows cols : Nat) :
    (ConwayBio.parse_bio_to_grid bio rows cols).1 =
      ConwayBio.to_grid
        (ConwayBio.glider_sub
          (ConwayBio.repair (ConwayBio.inflate bio rows cols) rows cols).1
          (ConwayBio.repair (ConwayBio.inflate bio rows cols) rows cols).2 rows cols) := rfl

/-- The package classification (with its `i < rows` column guard) is the
script classification with each row truncated to its first `rows` cells. -/
theorem to_grid_take_guard (bl : List Str) (rows : Nat) :
    Bio.to_grid bl rows = (ConwayBio.to_grid bl).map (List.take rows) := by
  unfold Bio.to_grid ConwayBio.to_grid
  rw [List.map_map]
  refine List.map_congr_left ?_
  intro l _
  show (l.take rows).map (fun cell => if cell ∈ ALIVE_CHARS then 1 else 0) =
    (l.map (fun cell => if cell ∈ (['■', '▀', '▄'] : List Char) then 1 else 0)).take rows
  rw [List.map_take]
  rfl

/-- The two glider substitutions differ only in the alive glyph they draw
with (full vs top-half), which the lenient classification erases. -/
theorem glider_classify_eq (bl : List Str) (v : Bool) (rows cols : Nat) :
    ConwayBio.to_grid (Bio.glider_sub bl v rows cols) =
      ConwayBio.to_grid (ConwayBio.glider_sub bl v rows cols) := by
  unfold Bio.glider_sub ConwayBio.glider_sub
  by_cases h1 : v = false ∧ py_strip bl.flatten = []
  · rw [if_pos h1, if_pos h1]
    by_cases h2 : 3 ≤ cols ∧ 3 ≤ rows
    · rw [if_pos h2, if_pos h2]
      unfold ConwayBio.to_grid
      simp only [List.map_set, List.map_replicate, List.map_cons]
      rfl
    · rw [if_neg h2, if_neg h2]
      rfl
  · rw [if_neg h1, if_neg h1]

/-- C10 (amended): for every bio string and dimensions, the package decoder
and the script decoder return the same validity flag, and the package grid
is the script grid with each row truncated to its first `rows` cells (the
package classification guards the column index against `rows` instead of
`cols`); the pairs are not identical in general. -/
theorem parsers_agree_up_to_guard (bio : Str) (rows cols : Nat) :
    Bio.parse_bio_to_grid bio rows cols =
      ((ConwayBio.parse_bio_to_grid bio rows cols).1.map (List.take rows),
        (ConwayBio.parse_bio_to_grid bio rows cols).2) := by
  refine Prod.ext ?_ rfl
  rw [bio_parse_grid_fst, conway_parse_grid_fst, to_grid_take_guard, glider_classify_eq]
  rfl
